import Mathlib

/-!
# Round trip of Ed25519 signatures through libsodium: `ed25519_sodium_pynacl.c`

The program is one function, `main`, which calls five functions of the sodium
library in a fixed order and prints progress messages.  The library is not part
of the repository, so the embedding takes it as a parameter (`Sodium`): each
library function is modelled by the value it returns together with the bytes
it leaves in its out-parameters.  `main` is translated statement by statement;
it yields the ordered list of everything it does that is visible from outside
(library calls with their arguments and results, and `printf` output) and the
value it returns.
-/

set_option linter.unusedVariables false
set_option maxRecDepth 100000

namespace Ed25519SodiumPynacl

/-! ## Constants -/

/-- An `unsigned char` / `uint8_t`. -/
abbrev Byte := Fin 256

/-- Modelled from the spec: `EXIT_FAILURE` comes from `<stdlib.h>`, which is not
in the repository; the spec asks for a non-zero exit status on failure, and 1 is
the value the macro has on the common C libraries. -/
def EXIT_FAILURE : Int := 1

/-- Modelled from the spec: `crypto_sign_PUBLICKEYBYTES` comes from `<sodium.h>`;
the spec gives the public key 32 bytes. -/
def crypto_sign_PUBLICKEYBYTES : Nat := 32

/-- Modelled from the spec: `crypto_sign_SECRETKEYBYTES` comes from `<sodium.h>`;
the spec gives the secret key 64 bytes. -/
def crypto_sign_SECRETKEYBYTES : Nat := 64

/-- Modelled from the spec: `crypto_sign_BYTES` comes from `<sodium.h>`; the spec
gives the signature 64 bytes. -/
def crypto_sign_BYTES : Nat := 64

/-- Modelled from the spec: `crypto_sign_SEEDBYTES` comes from `<sodium.h>`; the
spec gives the seed 32 bytes. -/
def crypto_sign_SEEDBYTES : Nat := 32

/-- `#define PUBLICKEY_HEX_BYTES (2 * crypto_sign_PUBLICKEYBYTES + 1)` -/
def PUBLICKEY_HEX_BYTES : Nat := 2 * crypto_sign_PUBLICKEYBYTES + 1

/-- `#define SECRETKEY_HEX_BYTES (2 * crypto_sign_SECRETKEYBYTES + 1)` -/
def SECRETKEY_HEX_BYTES : Nat := 2 * crypto_sign_SECRETKEYBYTES + 1

/-- The initialiser of `static const uint8_t key_seed[crypto_sign_SEEDBYTES]`. -/
def key_seed : List Byte :=
  [0xeb, 0x6d, 0x09, 0x28, 0x94, 0x15, 0x4b, 0xdb,
   0xd6, 0x6e, 0x63, 0x69, 0xb6, 0xd8, 0x4c, 0x98,
   0x12, 0x92, 0x74, 0x2c, 0x3b, 0xd2, 0x76, 0x82,
   0xdd, 0x17, 0x6c, 0xa7, 0xa4, 0xfb, 0xc1, 0xa2]

/-- `#define MESSAGE (const unsigned char *) "test"`: the bytes the pointer
points to, that is the four letters and the terminator of the string literal. -/
def MESSAGE : List Byte := [0x74, 0x65, 0x73, 0x74, 0x00]

/-- `#define MESSAGE_LEN 4` -/
def MESSAGE_LEN : Nat := 4

/-! ## The library interface -/

/-- What `crypto_sign_seed_keypair(pk, sk, seed)` leaves behind: the contents of
the two key buffers and its return value. -/
structure KeypairResult where
  pk : List Byte
  sk : List Byte
  ret : Int
  deriving DecidableEq

/-- What `crypto_sign(sm, &smlen_p, m, mlen, sk)` leaves behind. -/
structure SignResult where
  sm : List Byte
  smlen_p : Nat
  ret : Int
  deriving DecidableEq

/-- What `crypto_sign_open(m, &mlen_p, sm, smlen, pk)` leaves behind. -/
structure OpenResult where
  m : List Byte
  mlen_p : Nat
  ret : Int
  deriving DecidableEq

/-- The five library functions `main` calls.  `sodium_bin2hex` yields the C string
found in `hex` after the call. -/
structure Sodium where
  sodium_init : Int
  crypto_sign_seed_keypair : (seed : List Byte) → KeypairResult
  sodium_bin2hex : (hex_maxlen : Nat) → (bin : List Byte) → (bin_len : Nat) → String
  crypto_sign : (m : List Byte) → (mlen : Nat) → (sk : List Byte) → SignResult
  crypto_sign_open : (sm : List Byte) → (smlen : Nat) → (pk : List Byte) → OpenResult

/-! ## Observable behaviour -/

/-- One externally visible step of `main`.  A call records the declared size of
the buffers handed over for writing, the arguments, and the result. -/
inductive Event where
  | sodium_init (ret : Int)
  | crypto_sign_seed_keypair (pk_size sk_size : Nat) (seed : List Byte) (out : KeypairResult)
  | sodium_bin2hex (hex_size hex_maxlen : Nat) (bin : List Byte) (bin_len : Nat) (out : String)
  | crypto_sign (sm_size : Nat) (m : List Byte) (mlen : Nat) (sk : List Byte) (out : SignResult)
  | crypto_sign_open (m_size : Nat) (sm : List Byte) (smlen : Nat) (pk : List Byte)
      (out : OpenResult)
  | printf (text : String)
  deriving DecidableEq

/-- The result of running `main`: what it did, in order, and the value it returned. -/
structure Process where
  trace : List Event
  status : Int
  deriving DecidableEq

/-- The text an event sends to standard output. -/
def Event.text : Event → String
  | .printf t => t
  | _ => ""

/-- Everything printed, in order. -/
def Process.stdout (p : Process) : String :=
  String.join (p.trace.map Event.text)

/-- The pipeline stage an event belongs to. -/
inductive Stage where
  | Init
  | DeriveKeys
  | Encode
  | Sign
  | Verify
  deriving DecidableEq, Repr

/-- The stage of a library call; `printf` is no stage. -/
def Event.stage : Event → Option Stage
  | .sodium_init _ => some .Init
  | .crypto_sign_seed_keypair _ _ _ _ => some .DeriveKeys
  | .sodium_bin2hex _ _ _ _ _ => some .Encode
  | .crypto_sign _ _ _ _ _ => some .Sign
  | .crypto_sign_open _ _ _ _ _ => some .Verify
  | .printf _ => none

/-- The library calls made, by stage, in order. -/
def Process.stages (p : Process) : List Stage :=
  p.trace.filterMap Event.stage

/-! ## The program -/

/-- `int main(int argc, char *argv[])` -/
def main (lib : Sodium) (argc : Int) (argv : List String) : Process :=
  let ret : Int := EXIT_FAILURE
  let init := lib.sodium_init
  let t := [Event.sodium_init init]
  if init < 0 then
    let t := t ++ [Event.printf "ERROR: The sodium library couldn't be initialized!\n"]
    { trace := t, status := EXIT_FAILURE }
  else
    -- unsigned char public_key[crypto_sign_PUBLICKEYBYTES], secret_key[crypto_sign_SECRETKEYBYTES]
    let kp := lib.crypto_sign_seed_keypair key_seed
    let public_key := kp.pk
    let secret_key := kp.sk
    let t := t ++ [Event.crypto_sign_seed_keypair crypto_sign_PUBLICKEYBYTES
      crypto_sign_SECRETKEYBYTES key_seed kp]
    -- char hex_public[PUBLICKEY_HEX_BYTES], hex_secret[SECRETKEY_HEX_BYTES]
    let hex_public := lib.sodium_bin2hex PUBLICKEY_HEX_BYTES public_key crypto_sign_PUBLICKEYBYTES
    let t := t ++ [Event.sodium_bin2hex PUBLICKEY_HEX_BYTES PUBLICKEY_HEX_BYTES public_key
      crypto_sign_PUBLICKEYBYTES hex_public]
    let hex_secret := lib.sodium_bin2hex SECRETKEY_HEX_BYTES secret_key crypto_sign_SECRETKEYBYTES
    let t := t ++ [Event.sodium_bin2hex SECRETKEY_HEX_BYTES SECRETKEY_HEX_BYTES secret_key
      crypto_sign_SECRETKEYBYTES hex_secret]
    let t := t ++ [Event.printf "Generated a signing/verifying key pair:\n"]
    let t := t ++ [Event.printf ("\tSecret key: " ++ hex_secret ++ "\n")]
    let t := t ++ [Event.printf ("\tPublic key: " ++ hex_public ++ "\n")]
    -- unsigned char signed_message[crypto_sign_BYTES + MESSAGE_LEN]
    let t := t ++ [Event.printf "Signing a test message ..."]
    let s := lib.crypto_sign MESSAGE MESSAGE_LEN secret_key
    let signed_message := s.sm
    let signed_message_len := s.smlen_p
    let t := t ++ [Event.crypto_sign (crypto_sign_BYTES + MESSAGE_LEN) MESSAGE MESSAGE_LEN
      secret_key s]
    let t := t ++ [Event.printf " Done\n"]
    -- unsigned char unsigned_message[MESSAGE_LEN]
    let t := t ++ [Event.printf "Verifying the test signed message ..."]
    let v := lib.crypto_sign_open signed_message signed_message_len public_key
    let ret := v.ret
    let t := t ++ [Event.crypto_sign_open MESSAGE_LEN signed_message signed_message_len
      public_key v]
    let t :=
      if ret ≠ 0 then
        t ++ [Event.printf " invalid signature"]
      else
        t ++ [Event.printf " OK\n"]
    { trace := t, status := ret }

/-! ## Hexadecimal text -/

/-- The lowercase hexadecimal digit of a value below 16. -/
def hexDigit (n : Nat) : Char :=
  match n with
  | 0 => '0' | 1 => '1' | 2 => '2' | 3 => '3'
  | 4 => '4' | 5 => '5' | 6 => '6' | 7 => '7'
  | 8 => '8' | 9 => '9' | 10 => 'a' | 11 => 'b'
  | 12 => 'c' | 13 => 'd' | 14 => 'e' | _ => 'f'

/-- Modelled from the spec: the diagnostic encoder (`sodium_bin2hex`, part of the
library and absent from the repository) renders a binary buffer as lowercase
hexadecimal text, two characters for each byte, high digit first. -/
def hexEncode : List Byte → List Char
  | [] => []
  | b :: bs => hexDigit (b.val / 16) :: hexDigit (b.val % 16) :: hexEncode bs

/-- The value of a hexadecimal digit. -/
def hexValue (c : Char) : Option Nat :=
  if c = '0' then some 0 else if c = '1' then some 1 else if c = '2' then some 2
  else if c = '3' then some 3 else if c = '4' then some 4 else if c = '5' then some 5
  else if c = '6' then some 6 else if c = '7' then some 7 else if c = '8' then some 8
  else if c = '9' then some 9 else if c = 'a' then some 10 else if c = 'b' then some 11
  else if c = 'c' then some 12 else if c = 'd' then some 13 else if c = 'e' then some 14
  else if c = 'f' then some 15 else none

/-- Modelled from the spec: hex-decoding, the inverse direction of the round-trip
law the spec states for the encoder; text of odd length or with a character that
is no hexadecimal digit is rejected. -/
def hexDecode : List Char → Option (List Byte)
  | [] => some []
  | [_] => none
  | hi :: lo :: cs =>
    match hexValue hi, hexValue lo, hexDecode cs with
    | some h, some l, some bs => some (Fin.ofNat (16 * h + l) :: bs)
    | _, _, _ => none

/-- A character in `0-9a-f`. -/
def isLowerHex (c : Char) : Prop :=
  ('0' ≤ c ∧ c ≤ '9') ∨ ('a' ≤ c ∧ c ≤ 'f')

/-- The seed as the spec's end-to-end scenario prints it. -/
def specSeedText : String :=
  "eb6d092894154bdbd66e6369b6d84c9812927 42c3bd27682dd176ca7a4fbc1a2"

/-! ## Reading a run -/

/-- The result of the verification call of a run, when the run made one. -/
def Process.verified (p : Process) : Option OpenResult :=
  p.trace.findSome? fun e =>
    match e with
    | .crypto_sign_open _ _ _ _ out => some out
    | _ => none

/-- The key pair `main` derives. -/
def derivedKeys (lib : Sodium) : KeypairResult :=
  lib.crypto_sign_seed_keypair key_seed

/-- The result of the signing call of `main`. -/
def signedTest (lib : Sodium) : SignResult :=
  lib.crypto_sign MESSAGE MESSAGE_LEN (derivedKeys lib).sk

/-- The result of the verification call of `main`. -/
def openedTest (lib : Sodium) : OpenResult :=
  lib.crypto_sign_open (signedTest lib).sm (signedTest lib).smlen_p (derivedKeys lib).pk

/-- The size requirements of the library calls: the encoder needs
`hex_maxlen > 2 * bin_len` and writes at most `hex_maxlen` bytes, key derivation
fills a public and a secret key and reads a seed, the signer writes the signature
followed by the message, and verification writes the signed message without its
signature. -/
def Event.fits : Event → Prop
  | .sodium_init _ => True
  | .crypto_sign_seed_keypair pk_size sk_size seed _ =>
    crypto_sign_PUBLICKEYBYTES ≤ pk_size ∧ crypto_sign_SECRETKEYBYTES ≤ sk_size ∧
      crypto_sign_SEEDBYTES ≤ seed.length
  | .sodium_bin2hex hex_size hex_maxlen _ bin_len _ =>
    hex_maxlen ≤ hex_size ∧ 2 * bin_len < hex_maxlen
  | .crypto_sign sm_size m mlen _ _ => crypto_sign_BYTES + mlen ≤ sm_size ∧ mlen ≤ m.length
  | .crypto_sign_open m_size _ smlen _ _ => smlen - crypto_sign_BYTES ≤ m_size
  | .printf _ => True

/-- The bytes of the string `"test"`. -/
def testBytes : List Byte :=
  "test".toList.map fun c => Fin.ofNat c.toNat

/-- For a call that fills buffers of `main`: the declared size of each buffer,
paired with the number of bytes the library writes into it (a key of its fixed
length, the hexadecimal text with its terminator, the signature followed by the
message, the signed message without its signature). -/
def Event.writes : Event → List (Nat × Nat)
  | .sodium_init _ => []
  | .crypto_sign_seed_keypair pk_size sk_size _ _ =>
    [(pk_size, crypto_sign_PUBLICKEYBYTES), (sk_size, crypto_sign_SECRETKEYBYTES)]
  | .sodium_bin2hex hex_size _ _ bin_len _ => [(hex_size, 2 * bin_len + 1)]
  | .crypto_sign sm_size _ mlen _ _ => [(sm_size, crypto_sign_BYTES + mlen)]
  | .crypto_sign_open m_size _ smlen _ _ => [(m_size, smlen - crypto_sign_BYTES)]
  | .printf _ => []

/-- The buffer sizes and written lengths of a run, in the order of the calls. -/
def Process.writes (p : Process) : List (Nat × Nat) :=
  (p.trace.map Event.writes).flatten

/-! ## Laws of the library -/

/-- The round-trip law of the spec, `verify(sign(M, K.secret), K.public) = (valid, M)`,
for every key pair `K` the library derives from a seed of the required length and
every message `M`, given as a pointer and a length. -/
def RoundTripLaw (lib : Sodium) : Prop :=
  ∀ (seed m : List Byte) (mlen : Nat),
    seed.length = crypto_sign_SEEDBYTES → mlen ≤ m.length →
      lib.crypto_sign_open
          (lib.crypto_sign m mlen (lib.crypto_sign_seed_keypair seed).sk).sm
          (lib.crypto_sign m mlen (lib.crypto_sign_seed_keypair seed).sk).smlen_p
          (lib.crypto_sign_seed_keypair seed).pk
        = { m := m.take mlen, mlen_p := mlen, ret := 0 }

/-- The signer reports the length it wrote: signature plus message. -/
def SignedLengthLaw (lib : Sodium) : Prop :=
  ∀ (m : List Byte) (mlen : Nat) (sk : List Byte),
    (lib.crypto_sign m mlen sk).smlen_p = crypto_sign_BYTES + mlen

/-- The library with other return values for key derivation and signing; the
bytes they write are unchanged. -/
def withReports (lib : Sodium) (derive_ret sign_ret : Int) : Sodium :=
  { lib with
    crypto_sign_seed_keypair := fun seed =>
      { lib.crypto_sign_seed_keypair seed with ret := derive_ret }
    crypto_sign := fun m mlen sk => { lib.crypto_sign m mlen sk with ret := sign_ret } }

/-- The library with another verification function. -/
def withVerify (lib : Sodium) (f : List Byte → Nat → List Byte → OpenResult) : Sodium :=
  { lib with crypto_sign_open := f }

/-! ## A stand-in library for concrete runs -/

/-- The signature of the stand-in scheme: the key material, padded with zeros or
cut to `crypto_sign_BYTES` bytes. -/
def demoTag (key : List Byte) : List Byte :=
  (key ++ List.replicate crypto_sign_BYTES 0).take crypto_sign_BYTES

/-- An executable stand-in for the library, with chosen return values for
initialisation, key derivation and signing.  The public key is the seed, the
secret key is the seed followed by the public key, a signed message is the tag
of the secret key followed by the message, and verification compares the tag. -/
def demoSodium (init derive_ret sign_ret : Int) : Sodium where
  sodium_init := init
  crypto_sign_seed_keypair seed := { pk := seed, sk := seed ++ seed, ret := derive_ret }
  sodium_bin2hex _ bin bin_len := String.mk (hexEncode (bin.take bin_len))
  crypto_sign m mlen sk :=
    { sm := demoTag sk ++ m.take mlen, smlen_p := crypto_sign_BYTES + mlen, ret := sign_ret }
  crypto_sign_open sm smlen pk :=
    if sm.take crypto_sign_BYTES = demoTag (pk ++ pk) then
      { m := (sm.drop crypto_sign_BYTES).take (smlen - crypto_sign_BYTES),
        mlen_p := smlen - crypto_sign_BYTES, ret := 0 }
    else
      { m := [], mlen_p := 0, ret := -1 }

/-- A verification function that rejects everything with a given code. -/
def rejectWith (code : Int) : List Byte → Nat → List Byte → OpenResult :=
  fun _ _ _ => { m := [], mlen_p := 0, ret := code }

/-! ## Lemmas on hexadecimal text -/

theorem hexDigit_isLowerHex (n : Nat) : isLowerHex (hexDigit n) := by
  unfold hexDigit isLowerHex
  split <;> decide

theorem hexValue_hexDigit (n : Nat) (h : n < 16) : hexValue (hexDigit n) = some n := by
  interval_cases n <;> rfl

theorem byte_of_digits (b : Byte) : Fin.ofNat (16 * (b.val / 16) + b.val % 16) = b := by
  apply Fin.ext
  have hb : b.val < 256 := b.isLt
  simp only [Fin.ofNat, Nat.div_add_mod]
  exact Nat.mod_eq_of_lt hb

theorem hexEncode_length (key : List Byte) : (hexEncode key).length = 2 * key.length := by
  induction key with
  | nil => rfl
  | cons b bs ih => simp only [hexEncode, List.length_cons, ih]; omega

theorem hexEncode_lower (key : List Byte) : ∀ c ∈ hexEncode key, isLowerHex c := by
  induction key with
  | nil => intro c hc; simp [hexEncode] at hc
  | cons b bs ih =>
    intro c hc
    simp only [hexEncode, List.mem_cons] at hc
    rcases hc with rfl | rfl | hc
    · exact hexDigit_isLowerHex _
    · exact hexDigit_isLowerHex _
    · exact ih c hc

theorem hexDecode_hexEncode (key : List Byte) : hexDecode (hexEncode key) = some key := by
  induction key with
  | nil => rfl
  | cons b bs ih =>
    have hb : b.val < 256 := b.isLt
    have hhi : hexValue (hexDigit (b.val / 16)) = some (b.val / 16) :=
      hexValue_hexDigit _ (by omega)
    have hlo : hexValue (hexDigit (b.val % 16)) = some (b.val % 16) :=
      hexValue_hexDigit _ (by omega)
    simp only [hexEncode, hexDecode, hhi, hlo, ih, byte_of_digits]

/-! ## The two paths through `main` -/

theorem main_of_init_failed (lib : Sodium) (argc : Int) (argv : List String)
    (h : lib.sodium_init < 0) :
    main lib argc argv =
      { trace := [Event.sodium_init lib.sodium_init,
                  Event.printf "ERROR: The sodium library couldn't be initialized!\n"],
        status := EXIT_FAILURE } := by
  simp [main, h]

theorem main_of_init_ok (lib : Sodium) (argc : Int) (argv : List String)
    (h : 0 ≤ lib.sodium_init) :
    main lib argc argv =
      { trace :=
          [Event.sodium_init lib.sodium_init,
           Event.crypto_sign_seed_keypair crypto_sign_PUBLICKEYBYTES crypto_sign_SECRETKEYBYTES
             key_seed (derivedKeys lib),
           Event.sodium_bin2hex PUBLICKEY_HEX_BYTES PUBLICKEY_HEX_BYTES (derivedKeys lib).pk
             crypto_sign_PUBLICKEYBYTES
             (lib.sodium_bin2hex PUBLICKEY_HEX_BYTES (derivedKeys lib).pk
               crypto_sign_PUBLICKEYBYTES),
           Event.sodium_bin2hex SECRETKEY_HEX_BYTES SECRETKEY_HEX_BYTES (derivedKeys lib).sk
             crypto_sign_SECRETKEYBYTES
             (lib.sodium_bin2hex SECRETKEY_HEX_BYTES (derivedKeys lib).sk
               crypto_sign_SECRETKEYBYTES),
           Event.printf "Generated a signing/verifying key pair:\n",
           Event.printf ("\tSecret key: "
             ++ lib.sodium_bin2hex SECRETKEY_HEX_BYTES (derivedKeys lib).sk
                 crypto_sign_SECRETKEYBYTES ++ "\n"),
           Event.printf ("\tPublic key: "
             ++ lib.sodium_bin2hex PUBLICKEY_HEX_BYTES (derivedKeys lib).pk
                 crypto_sign_PUBLICKEYBYTES ++ "\n"),
           Event.printf "Signing a test message ...",
           Event.crypto_sign (crypto_sign_BYTES + MESSAGE_LEN) MESSAGE MESSAGE_LEN
             (derivedKeys lib).sk (signedTest lib),
           Event.printf " Done\n",
           Event.printf "Verifying the test signed message ...",
           Event.crypto_sign_open MESSAGE_LEN (signedTest lib).sm (signedTest lib).smlen_p
             (derivedKeys lib).pk (openedTest lib),
           Event.printf (if (openedTest lib).ret = 0 then " OK\n" else " invalid signature")],
        status := (openedTest lib).ret } := by
  have hn : ¬ lib.sodium_init < 0 := by omega
  by_cases hv : (lib.crypto_sign_open
      (lib.crypto_sign MESSAGE MESSAGE_LEN (lib.crypto_sign_seed_keypair key_seed).sk).sm
      (lib.crypto_sign MESSAGE MESSAGE_LEN (lib.crypto_sign_seed_keypair key_seed).sk).smlen_p
      (lib.crypto_sign_seed_keypair key_seed).pk).ret = 0
  · simp [main, hn, hv, derivedKeys, signedTest, openedTest]
  · simp [main, hn, hv, derivedKeys, signedTest, openedTest]

/-! ## The stand-in library obeys the laws -/

theorem demoTag_length (key : List Byte) : (demoTag key).length = crypto_sign_BYTES := by
  simp [demoTag]

theorem demoSodium_roundTrip (init derive_ret sign_ret : Int) :
    RoundTripLaw (demoSodium init derive_ret sign_ret) := by
  intro seed m mlen _ hm
  have hlen := demoTag_length (seed ++ seed)
  have htake : (demoTag (seed ++ seed) ++ List.take mlen m).take crypto_sign_BYTES
      = demoTag (seed ++ seed) := by
    rw [← hlen, List.take_left]
  have hdrop : (demoTag (seed ++ seed) ++ List.take mlen m).drop crypto_sign_BYTES
      = List.take mlen m := by
    rw [← hlen, List.drop_left]
  simp only [demoSodium, htake, hdrop, if_true, Nat.add_sub_cancel_left, List.take_take,
    Nat.min_self]

theorem demoSodium_signedLength (init derive_ret sign_ret : Int) :
    SignedLengthLaw (demoSodium init derive_ret sign_ret) := by
  intro m mlen sk
  rfl

/-! ## The claims -/

/-- C4: the hard-coded seed `key_seed` has exactly `crypto_sign_SEEDBYTES` = 32
bytes, and its lowercase hexadecimal rendering is
`eb6d092894154bdbd66e6369b6d84c981292742c3bd27682dd176ca7a4fbc1a2`, which is the
seed of the spec's end-to-end scenario once the blank in it is removed. -/
theorem key_seed_is_spec_seed :
    key_seed.length = crypto_sign_SEEDBYTES ∧ key_seed.length = 32 ∧
    hexEncode key_seed
      = "eb6d092894154bdbd66e6369b6d84c981292742c3bd27682dd176ca7a4fbc1a2".toList ∧
    hexEncode key_seed = specSeedText.toList.filter (fun c => !c.isWhitespace) := by
  decide

/-- C5: the hexadecimal encoding of a key buffer of `n` bytes has exactly `2 * n`
characters, each of them in `0-9a-f`, and decoding it gives back the bytes; in
particular a 32-byte public key gives 64 characters and a 64-byte secret key 128. -/
theorem hex_round_trip (key : List Byte) :
    (hexEncode key).length = 2 * key.length ∧
    (∀ c ∈ hexEncode key, isLowerHex c) ∧
    hexDecode (hexEncode key) = some key :=
  ⟨hexEncode_length key, hexEncode_lower key, hexDecode_hexEncode key⟩

/-- Witness of C5 at the public key and the secret key the stand-in library derives
from the hard-coded seed. -/
theorem hex_round_trip_witness :
    (key_seed.length = 32 ∧ (hexEncode key_seed).length = 64 ∧
      hexDecode (hexEncode key_seed) = some key_seed) ∧
    ((key_seed ++ key_seed).length = 64 ∧ (hexEncode (key_seed ++ key_seed)).length = 128 ∧
      hexDecode (hexEncode (key_seed ++ key_seed)) = some (key_seed ++ key_seed)) :=
  ⟨⟨by decide, by rw [(hex_round_trip key_seed).1]; decide, (hex_round_trip key_seed).2.2⟩,
   ⟨by decide, by rw [(hex_round_trip (key_seed ++ key_seed)).1]; decide,
    (hex_round_trip (key_seed ++ key_seed)).2.2⟩⟩

/-- C6: `main` consumes no command-line argument: with the same library, any two
argument vectors give the same run, hence the same output and exit status. -/
theorem main_ignores_arguments (lib : Sodium) (argc argc' : Int) (argv argv' : List String) :
    main lib argc argv = main lib argc' argv' ∧
    (main lib argc argv).stdout = (main lib argc' argv').stdout ∧
    (main lib argc argv).status = (main lib argc' argv').status :=
  ⟨rfl, rfl, rfl⟩

/-- C1: the exit status of `main` is 0 exactly when `sodium_init` returned a
non-negative value and the call of `crypto_sign_open` returned 0; it is non-zero
exactly when initialisation failed or that call returned a non-zero value. -/
theorem exit_status_zero_iff (lib : Sodium) (argc : Int) (argv : List String) :
    ((main lib argc argv).status = 0 ↔
      0 ≤ lib.sodium_init ∧ ∃ out, (main lib argc argv).verified = some out ∧ out.ret = 0) ∧
    ((main lib argc argv).status ≠ 0 ↔
      lib.sodium_init < 0 ∨ ∃ out, (main lib argc argv).verified = some out ∧ out.ret ≠ 0) := by
  by_cases h : lib.sodium_init < 0
  · have hn : ¬ 0 ≤ lib.sodium_init := by omega
    simp [main_of_init_failed lib argc argv h, hn, h, Process.verified, EXIT_FAILURE]
  · have hp : 0 ≤ lib.sodium_init := by omega
    simp [main_of_init_ok lib argc argv hp, hp, h, Process.verified, List.findSome?]

/-- C2: when `sodium_init` returns a negative value, `main` makes no other library
call, prints only the initialisation error message, and returns `EXIT_FAILURE`,
which is not zero. -/
theorem init_failure_aborts (lib : Sodium) (argc : Int) (argv : List String)
    (h : lib.sodium_init < 0) :
    (main lib argc argv).trace
      = [Event.sodium_init lib.sodium_init,
         Event.printf "ERROR: The sodium library couldn't be initialized!\n"] ∧
    (main lib argc argv).stages = [Stage.Init] ∧
    (main lib argc argv).stdout = "ERROR: The sodium library couldn't be initialized!\n" ∧
    (main lib argc argv).status = EXIT_FAILURE ∧ EXIT_FAILURE ≠ 0 := by
  simp [main, h, Process.stages, Process.stdout, Event.stage, Event.text, EXIT_FAILURE,
    String.join]

/-- Witness of C2: a library whose initialisation returns -1. -/
theorem init_failure_aborts_witness :
    (demoSodium (-1) 0 0).sodium_init < 0 ∧
    (main (demoSodium (-1) 0 0) 1 ["prog"]).stages = [Stage.Init] ∧
    (main (demoSodium (-1) 0 0) 1 ["prog"]).status = EXIT_FAILURE :=
  ⟨by decide, (init_failure_aborts (demoSodium (-1) 0 0) 1 ["prog"] (by decide)).2.1,
    (init_failure_aborts (demoSodium (-1) 0 0) 1 ["prog"] (by decide)).2.2.2.1⟩

/-- C3: when initialisation succeeds, `main` derives one key pair from the
hard-coded seed, signs the first 4 bytes of `"test"` with the secret key of that
pair, and verifies exactly the signed message and the length the signer produced
with the public key of that pair; for a library that obeys the round-trip law,
verification succeeds, the exit status is 0, and the recovered message is `"test"`
with length 4. -/
theorem round_trip_end_to_end (lib : Sodium) (argc : Int) (argv : List String)
    (hinit : 0 ≤ lib.sodium_init) (hlaw : RoundTripLaw lib) :
    (main lib argc argv).trace.filter (fun e => e.stage = some Stage.DeriveKeys)
      = [Event.crypto_sign_seed_keypair crypto_sign_PUBLICKEYBYTES crypto_sign_SECRETKEYBYTES
          key_seed (derivedKeys lib)] ∧
    (main lib argc argv).trace.filter (fun e => e.stage = some Stage.Sign)
      = [Event.crypto_sign (crypto_sign_BYTES + MESSAGE_LEN) MESSAGE MESSAGE_LEN
          (derivedKeys lib).sk (signedTest lib)] ∧
    (main lib argc argv).trace.filter (fun e => e.stage = some Stage.Verify)
      = [Event.crypto_sign_open MESSAGE_LEN (signedTest lib).sm (signedTest lib).smlen_p
          (derivedKeys lib).pk { m := testBytes, mlen_p := 4, ret := 0 }] ∧
    MESSAGE.take MESSAGE_LEN = testBytes ∧
    (main lib argc argv).verified = some { m := testBytes, mlen_p := 4, ret := 0 } ∧
    (main lib argc argv).status = 0 := by
  have hseed : key_seed.length = crypto_sign_SEEDBYTES := by decide
  have hmsg : MESSAGE_LEN ≤ MESSAGE.length := by decide
  have htest : MESSAGE.take MESSAGE_LEN = testBytes := by decide
  have hopen : openedTest lib = { m := testBytes, mlen_p := 4, ret := 0 } := by
    have h := hlaw key_seed MESSAGE MESSAGE_LEN hseed hmsg
    rw [htest] at h
    exact h
  rw [main_of_init_ok lib argc argv hinit, hopen]
  simp [Process.verified, Event.stage, List.filter, List.findSome?, htest]

/-- Witness of C3: the stand-in library, whose initialisation succeeds and which
obeys the round-trip law. -/
theorem round_trip_end_to_end_witness :
    0 ≤ (demoSodium 0 0 0).sodium_init ∧ RoundTripLaw (demoSodium 0 0 0) ∧
    (main (demoSodium 0 0 0) 1 ["prog"]).verified
      = some { m := testBytes, mlen_p := 4, ret := 0 } ∧
    (main (demoSodium 0 0 0) 1 ["prog"]).status = 0 :=
  ⟨by decide, demoSodium_roundTrip 0 0 0,
    (round_trip_end_to_end (demoSodium 0 0 0) 1 ["prog"] (by decide)
      (demoSodium_roundTrip 0 0 0)).2.2.2.2.1,
    (round_trip_end_to_end (demoSodium 0 0 0) 1 ["prog"] (by decide)
      (demoSodium_roundTrip 0 0 0)).2.2.2.2.2⟩

/-- C9: when initialisation succeeds, the console output is, in this order, the
header line, the line of the secret key with the hexadecimal text of the 64-byte
secret key, the line of the public key with the hexadecimal text of the 32-byte
public key, `Signing a test message ... Done`, `Verifying the test signed
message ...`, and then ` OK` with a newline exactly when the exit status is 0 and
` invalid signature` otherwise. -/
theorem console_output (lib : Sodium) (argc : Int) (argv : List String)
    (hinit : 0 ≤ lib.sodium_init) :
    (main lib argc argv).stdout
      = "Generated a signing/verifying key pair:\n"
        ++ ("\tSecret key: "
            ++ lib.sodium_bin2hex SECRETKEY_HEX_BYTES (derivedKeys lib).sk 64 ++ "\n")
        ++ ("\tPublic key: "
            ++ lib.sodium_bin2hex PUBLICKEY_HEX_BYTES (derivedKeys lib).pk 32 ++ "\n")
        ++ ("Signing a test message ..." ++ " Done\n")
        ++ "Verifying the test signed message ..."
        ++ (if (main lib argc argv).status = 0 then " OK\n" else " invalid signature") ∧
    "Signing a test message ..." ++ " Done\n" = "Signing a test message ... Done\n" := by
  refine ⟨?_, by decide⟩
  rw [main_of_init_ok lib argc argv hinit]
  simp [Process.stdout, Event.text, String.join, String.append_assoc,
    crypto_sign_SECRETKEYBYTES, crypto_sign_PUBLICKEYBYTES]

/-- Witness of C9: the output of a run with the stand-in library. -/
theorem console_output_witness :
    0 ≤ (demoSodium 0 0 0).sodium_init ∧
    (main (demoSodium 0 0 0) 1 ["prog"]).stdout
      = "Generated a signing/verifying key pair:\n"
        ++ ("\tSecret key: "
            ++ (demoSodium 0 0 0).sodium_bin2hex SECRETKEY_HEX_BYTES
                (derivedKeys (demoSodium 0 0 0)).sk 64 ++ "\n")
        ++ ("\tPublic key: "
            ++ (demoSodium 0 0 0).sodium_bin2hex PUBLICKEY_HEX_BYTES
                (derivedKeys (demoSodium 0 0 0)).pk 32 ++ "\n")
        ++ ("Signing a test message ..." ++ " Done\n")
        ++ "Verifying the test signed message ..."
        ++ (if (main (demoSodium 0 0 0) 1 ["prog"]).status = 0 then " OK\n"
            else " invalid signature") :=
  ⟨by decide, (console_output (demoSodium 0 0 0) 1 ["prog"] (by decide)).1⟩

/-- C7, as stated, fails: with a library whose key derivation and signing both
return -1, `main` still performs every later stage and returns 0; the same
happens when only key derivation, or only signing, returns -1. -/
theorem unchecked_stage_failure :
    (derivedKeys (demoSodium 0 (-1) (-1))).ret ≠ 0 ∧
    (signedTest (demoSodium 0 (-1) (-1))).ret ≠ 0 ∧
    (main (demoSodium 0 (-1) (-1)) 1 ["prog"]).stages
      = [Stage.Init, Stage.DeriveKeys, Stage.Encode, Stage.Encode, Stage.Sign, Stage.Verify] ∧
    (main (demoSodium 0 (-1) (-1)) 1 ["prog"]).status = 0 ∧
    ((derivedKeys (demoSodium 0 (-1) 0)).ret ≠ 0 ∧
      (main (demoSodium 0 (-1) 0) 1 ["prog"]).status = 0) ∧
    ((signedTest (demoSodium 0 0 (-1))).ret ≠ 0 ∧
      (main (demoSodium 0 0 (-1)) 1 ["prog"]).status = 0) := by
  decide

/-- C7, amended: only Init and Verify are checked.  When initialisation fails,
`main` performs no later stage and its exit status is non-zero.  When it
succeeds, `main` performs all the stages in order and its exit status is the
value verification returned, so a failed verification gives a non-zero status.
The return values of key derivation and signing are not inspected: with any other
values in their place the stages, the output and the exit status are the same. -/
theorem only_init_and_verify_are_checked (lib : Sodium) (argc : Int) (argv : List String)
    (derive_ret sign_ret : Int) :
    (lib.sodium_init < 0 →
      (main lib argc argv).stages = [Stage.Init] ∧ (main lib argc argv).status ≠ 0) ∧
    (0 ≤ lib.sodium_init →
      (main lib argc argv).stages
        = [Stage.Init, Stage.DeriveKeys, Stage.Encode, Stage.Encode, Stage.Sign, Stage.Verify] ∧
      (main lib argc argv).verified = some (openedTest lib) ∧
      (main lib argc argv).status = (openedTest lib).ret) ∧
    (main (withReports lib derive_ret sign_ret) argc argv).stages = (main lib argc argv).stages ∧
    (main (withReports lib derive_ret sign_ret) argc argv).stdout = (main lib argc argv).stdout ∧
    (main (withReports lib derive_ret sign_ret) argc argv).status
      = (main lib argc argv).status := by
  by_cases h : lib.sodium_init < 0
  · have hn : ¬ 0 ≤ lib.sodium_init := by omega
    have h' : (withReports lib derive_ret sign_ret).sodium_init < 0 := h
    rw [main_of_init_failed lib argc argv h, main_of_init_failed _ argc argv h']
    simp [h, hn, Process.stages, Event.stage, EXIT_FAILURE, withReports]
  · have hp : 0 ≤ lib.sodium_init := by omega
    have hp' : 0 ≤ (withReports lib derive_ret sign_ret).sodium_init := hp
    rw [main_of_init_ok lib argc argv hp, main_of_init_ok _ argc argv hp']
    simp [h, hp, Process.stages, Process.stdout, Process.verified, Event.stage, Event.text,
      List.findSome?, withReports, derivedKeys, signedTest, openedTest]

/-- Witness of the amended C7: the stand-in library with failure reported by key
derivation and signing in place of success. -/
theorem only_init_and_verify_are_checked_witness :
    0 ≤ (demoSodium 0 0 0).sodium_init ∧
    (main (demoSodium 0 0 0) 1 ["prog"]).stages
      = [Stage.Init, Stage.DeriveKeys, Stage.Encode, Stage.Encode, Stage.Sign, Stage.Verify] ∧
    (main (withReports (demoSodium 0 0 0) (-1) (-1)) 1 ["prog"]).status
      = (main (demoSodium 0 0 0) 1 ["prog"]).status ∧
    (demoSodium (-1) 0 0).sodium_init < 0 ∧
    (main (demoSodium (-1) 0 0) 1 ["prog"]).stages = [Stage.Init] :=
  ⟨by decide,
    ((only_init_and_verify_are_checked (demoSodium 0 0 0) 1 ["prog"] (-1) (-1)).2.1
      (by decide)).1,
    (only_init_and_verify_are_checked (demoSodium 0 0 0) 1 ["prog"] (-1) (-1)).2.2.2.2,
    by decide,
    ((only_init_and_verify_are_checked (demoSodium (-1) 0 0) 1 ["prog"] 0 0).1
      (by decide)).1⟩

/-- C8, as stated, fails: two runs that differ only in the non-zero value
verification returns (-1 and 2) print the same text but end with different exit
statuses. -/
theorem failure_codes_are_distinguishable :
    (main (withVerify (demoSodium 0 0 0) (rejectWith (-1))) 1 ["prog"]).verified.map
        OpenResult.ret = some (-1) ∧
    (main (withVerify (demoSodium 0 0 0) (rejectWith 2)) 1 ["prog"]).verified.map
        OpenResult.ret = some 2 ∧
    (main (withVerify (demoSodium 0 0 0) (rejectWith (-1))) 1 ["prog"]).stdout
      = (main (withVerify (demoSodium 0 0 0) (rejectWith 2)) 1 ["prog"]).stdout ∧
    (main (withVerify (demoSodium 0 0 0) (rejectWith (-1))) 1 ["prog"]).status
      ≠ (main (withVerify (demoSodium 0 0 0) (rejectWith 2)) 1 ["prog"]).status := by
  decide

/-- C8, amended: for every two runs in which verification fails, whatever the
verification function does and returns, the printed output is the same and ends
in ` invalid signature`, and both exit statuses are non-zero; each exit status is
the value verification returned, so the two are equal exactly when the two
returned values are. -/
theorem verification_failure_is_coarse (lib : Sodium)
    (f g : List Byte → Nat → List Byte → OpenResult)
    (argc argc' : Int) (argv argv' : List String)
    (hf : ∃ out, (main (withVerify lib f) argc argv).verified = some out ∧ out.ret ≠ 0)
    (hg : ∃ out, (main (withVerify lib g) argc' argv').verified = some out ∧ out.ret ≠ 0) :
    (main (withVerify lib f) argc argv).stdout = (main (withVerify lib g) argc' argv').stdout ∧
    (main (withVerify lib f) argc argv).stdout
      = "Generated a signing/verifying key pair:\n"
        ++ ("\tSecret key: "
            ++ lib.sodium_bin2hex SECRETKEY_HEX_BYTES (derivedKeys lib).sk 64 ++ "\n")
        ++ ("\tPublic key: "
            ++ lib.sodium_bin2hex PUBLICKEY_HEX_BYTES (derivedKeys lib).pk 32 ++ "\n")
        ++ ("Signing a test message ..." ++ " Done\n")
        ++ "Verifying the test signed message ..."
        ++ " invalid signature" ∧
    (main (withVerify lib f) argc argv).status ≠ 0 ∧
    (main (withVerify lib g) argc' argv').status ≠ 0 ∧
    (main (withVerify lib f) argc argv).verified.map OpenResult.ret
      = some (main (withVerify lib f) argc argv).status ∧
    (main (withVerify lib g) argc' argv').verified.map OpenResult.ret
      = some (main (withVerify lib g) argc' argv').status := by
  by_cases h : lib.sodium_init < 0
  · have h' : (withVerify lib f).sodium_init < 0 := h
    obtain ⟨out, hout, _⟩ := hf
    rw [main_of_init_failed _ argc argv h'] at hout
    simp [Process.verified, List.findSome?] at hout
  · have hp : 0 ≤ lib.sodium_init := by omega
    have hpf : 0 ≤ (withVerify lib f).sodium_init := hp
    have hpg : 0 ≤ (withVerify lib g).sodium_init := hp
    obtain ⟨outf, hvf, hnf⟩ := hf
    obtain ⟨outg, hvg, hng⟩ := hg
    rw [main_of_init_ok _ argc argv hpf] at hvf ⊢
    rw [main_of_init_ok _ argc' argv' hpg] at hvg ⊢
    simp only [Process.verified, List.findSome?, Option.some.injEq] at hvf hvg
    rw [← hvf] at hnf
    rw [← hvg] at hng
    have hk : ∀ k, derivedKeys (withVerify lib k) = derivedKeys lib := fun _ => rfl
    have hx : ∀ k, (withVerify lib k).sodium_bin2hex = lib.sodium_bin2hex := fun _ => rfl
    refine ⟨?_, ?_, hnf, hng, ?_, ?_⟩
    · simp [Process.stdout, Event.text, String.join, hnf, hng, hk, hx]
    · simp [Process.stdout, Event.text, String.join, String.append_assoc, hnf, hk, hx,
        crypto_sign_SECRETKEYBYTES, crypto_sign_PUBLICKEYBYTES]
    · simp [Process.verified, List.findSome?]
    · simp [Process.verified, List.findSome?]

/-- Witness of the amended C8: the stand-in library with verification rejecting
once with -1 and once with 2. -/
theorem verification_failure_is_coarse_witness :
    (main (withVerify (demoSodium 0 0 0) (rejectWith (-1))) 1 ["prog"]).stdout
      = (main (withVerify (demoSodium 0 0 0) (rejectWith 2)) 0 []).stdout ∧
    (main (withVerify (demoSodium 0 0 0) (rejectWith (-1))) 1 ["prog"]).status ≠ 0 ∧
    (main (withVerify (demoSodium 0 0 0) (rejectWith 2)) 0 []).status ≠ 0 :=
  ⟨(verification_failure_is_coarse (demoSodium 0 0 0) (rejectWith (-1)) (rejectWith 2)
      1 0 ["prog"] []
      ⟨rejectWith (-1) [] 0 [], by decide, by decide⟩
      ⟨rejectWith 2 [] 0 [], by decide, by decide⟩).1,
    (verification_failure_is_coarse (demoSodium 0 0 0) (rejectWith (-1)) (rejectWith 2)
      1 0 ["prog"] []
      ⟨rejectWith (-1) [] 0 [], by decide, by decide⟩
      ⟨rejectWith 2 [] 0 [], by decide, by decide⟩).2.2.1,
    (verification_failure_is_coarse (demoSodium 0 0 0) (rejectWith (-1)) (rejectWith 2)
      1 0 ["prog"] []
      ⟨rejectWith (-1) [] 0 [], by decide, by decide⟩
      ⟨rejectWith 2 [] 0 [], by decide, by decide⟩).2.2.2.1⟩

/-- C10: every buffer `main` hands to the library is large enough.  The hex
buffers hold 65 and 129 bytes and are passed with `hex_maxlen > 2 * bin_len` for
the 32-byte and the 64-byte key; the signed-message buffer holds 64 + 4 = 68
bytes, the signature and the message the signer writes; and, the signer reporting
that length, the recovered-message buffer holds 4 bytes, the signed length 68
minus the 64 bytes of the signature. -/
theorem buffers_are_large_enough (lib : Sodium) (argc : Int) (argv : List String)
    (hlen : SignedLengthLaw lib) :
    PUBLICKEY_HEX_BYTES = 65 ∧ SECRETKEY_HEX_BYTES = 129 ∧
    2 * crypto_sign_PUBLICKEYBYTES < PUBLICKEY_HEX_BYTES ∧
    2 * crypto_sign_SECRETKEYBYTES < SECRETKEY_HEX_BYTES ∧
    crypto_sign_BYTES + MESSAGE_LEN = 68 ∧
    (∀ e ∈ (main lib argc argv).trace, e.fits) ∧
    (∀ w ∈ (main lib argc argv).writes, w.2 ≤ w.1) ∧
    (0 ≤ lib.sodium_init →
      (main lib argc argv).writes
        = [(32, 32), (64, 64), (65, 65), (129, 129), (68, 68), (4, 4)]) := by
  have hs : (signedTest lib).smlen_p = crypto_sign_BYTES + MESSAGE_LEN := hlen _ _ _
  refine ⟨by decide, by decide, by decide, by decide, by decide, ?_, ?_, ?_⟩
  · by_cases h : lib.sodium_init < 0
    · rw [main_of_init_failed lib argc argv h]
      simp [Event.fits]
    · rw [main_of_init_ok lib argc argv (by omega)]
      simp [Event.fits, hs, crypto_sign_BYTES, MESSAGE_LEN, MESSAGE, key_seed,
        crypto_sign_PUBLICKEYBYTES, crypto_sign_SECRETKEYBYTES, crypto_sign_SEEDBYTES,
        PUBLICKEY_HEX_BYTES, SECRETKEY_HEX_BYTES]
  · by_cases h : lib.sodium_init < 0
    · rw [main_of_init_failed lib argc argv h]
      simp [Process.writes, Event.writes]
    · rw [main_of_init_ok lib argc argv (by omega)]
      simp [Process.writes, Event.writes, hs, crypto_sign_BYTES, MESSAGE_LEN,
        crypto_sign_PUBLICKEYBYTES, crypto_sign_SECRETKEYBYTES,
        PUBLICKEY_HEX_BYTES, SECRETKEY_HEX_BYTES]
  · intro hp
    rw [main_of_init_ok lib argc argv hp]
    simp [Process.writes, Event.writes, hs, crypto_sign_BYTES, MESSAGE_LEN,
      crypto_sign_PUBLICKEYBYTES, crypto_sign_SECRETKEYBYTES,
      PUBLICKEY_HEX_BYTES, SECRETKEY_HEX_BYTES]

/-- Witness of C10: the stand-in library, whose signer reports the signature
length plus the message length. -/
theorem buffers_are_large_enough_witness :
    SignedLengthLaw (demoSodium 0 0 0) ∧ 0 ≤ (demoSodium 0 0 0).sodium_init ∧
    (main (demoSodium 0 0 0) 1 ["prog"]).writes
      = [(32, 32), (64, 64), (65, 65), (129, 129), (68, 68), (4, 4)] :=
  ⟨demoSodium_signedLength 0 0 0, by decide,
    (buffers_are_large_enough (demoSodium 0 0 0) 1 ["prog"]
      (demoSodium_signedLength 0 0 0)).2.2.2.2.2.2.2 (by decide)⟩

end Ed25519SodiumPynacl
